import Mathlib

/-!
Verification of the gmonitor-lib HTTP/storage helper library.

The development shallowly embeds the library's core (`clients.py`,
`schemas.py`, `settings.py`):

* `Json` models decoded structured data (Python values produced by
  `json.loads`); a Python `str` is the same kind of value as a decoded
  JSON string, so raw body text carried in an error is `Json.str`.
* `Response` models the slice of an `httpx.Response` the library reads:
  the status code, the body decoded as text, and the result of calling
  `.json()` on it (`some` decoded value, or `none` for `JSONDecodeError`).
* The logging side effect of the parser is made explicit: the parser
  returns the list of error-level log messages it emits.
* `_send_request` is modelled with the transport's behaviour for the
  single issued call passed in as a `TransportOutcome` (a received
  response, or an `httpx.HTTPError` with its string description), and the
  resource/observability effects (transport construction, client context
  open/close, error logs) recorded as an `Event` trace.
-/

namespace GmonitorLib

/-- Decoded structured data: the semantic equivalent of a Python value
produced by JSON decoding (nested dicts, lists, scalars). -/
inductive Json where
  | null
  | bool (b : Bool)
  | num (n : Int)
  | str (s : String)
  | arr (elems : List Json)
  | obj (fields : List (String × Json))

/-- Auth strategy attached to a client (`httpx.Auth`); carried opaquely. -/
structure Auth where
  token : String

/-- The slice of an `httpx.Response` read by the library: status code,
body decoded as text, and the outcome of `.json()` on the body
(`some` decoded value, `none` when decoding raises `JSONDecodeError`). -/
structure Response where
  status_code : Nat
  text : String
  jsonBody : Option Json

/-- httpx classifies a response as an error when the status code is in
the 4xx/5xx range. -/
def Response.is_error (r : Response) : Bool :=
  decide (400 ≤ r.status_code ∧ r.status_code ≤ 599)

/-- The single error kind raised on any failed outbound call
(`ExternalHttpRequestError` in `clients.py`); its argument is a Python
value: either decoded structured data or raw body text. -/
structure ExternalHttpRequestError where
  message : Json

/-- Translation of `convert_httpx_response_to_json` from `clients.py`.
The second component is the list of error-level log messages emitted. -/
def convert_httpx_response_to_json (response : Response) :
    Except ExternalHttpRequestError Json × List String :=
  if response.is_error then
    let error_message : Json :=
      match response.jsonBody with
      | some decoded => decoded
      | none => Json.str response.text
    (Except.error ⟨error_message⟩, [])
  else
    match response.jsonBody with
    | some decoded => (Except.ok decoded, [])
    | none =>
        (Except.error ⟨Json.str response.text⟩,
          ["Response body " ++ response.text])

/-- State of a `BaseHttpxClient` after `__init__`: SSL-verification flag,
base URL, and optional auth strategy. -/
structure BaseHttpxClient where
  _verify : Bool
  _base_url : String
  _auth : Option Auth

/-- Translation of `BaseHttpxClient.__init__`: `verify` defaults to
true, the base URL starts empty and no auth strategy is attached. -/
def BaseHttpxClient.init (verify : Bool := true) : BaseHttpxClient :=
  ⟨verify, "", none⟩

/-- HTTP methods available for outbound requests (`HttpMethod` enum). -/
inductive HttpMethod where
  | get
  | post
  | put
  | patch
  | delete

/-- String value of each `HttpMethod` member. -/
def HttpMethod.value : HttpMethod → String
  | HttpMethod.get => "get"
  | HttpMethod.post => "post"
  | HttpMethod.put => "put"
  | HttpMethod.patch => "patch"
  | HttpMethod.delete => "delete"

/-- `httpx.AsyncHTTPTransport(retries=..., verify=...)` as constructed by
`_send_request`. -/
structure AsyncHTTPTransport where
  retries : Nat
  verify : Bool

/-- Configuration of the per-call `httpx.AsyncClient` context. -/
structure AsyncClientConfig where
  base_url : String
  timeout : Nat
  auth : Option Auth
  transport : AsyncHTTPTransport

/-- Behaviour of the transport for the single call issued by
`_send_request`: either a response is received, or `httpx.HTTPError` is
raised with the given string description. -/
inductive TransportOutcome where
  | gotResponse (r : Response)
  | httpError (msg : String)

/-- Observable events of one `_send_request` call: transport
construction, client context open/close, and error-level log entries. -/
inductive Event where
  | transportCreated (t : AsyncHTTPTransport)
  | clientOpened (cfg : AsyncClientConfig)
  | clientClosed
  | logError (msg : String)

/-- Value returned by `_send_request`: the active parser's result, or
the raw response object when the parser argument is `None`. -/
inductive SendValue where
  | parsed (value : Json)
  | raw (r : Response)

/-- Translation of `BaseHttpxClient._send_request`. Python defaults are
mirrored: `timeout=5`, `parser=convert_httpx_response_to_json`,
`retries=0`. The result is the client object after the call (the source
mutates nothing), the returned-or-raised outcome, and the event trace. -/
def _send_request (self : BaseHttpxClient) (outcome : TransportOutcome)
    (path : String) (method : HttpMethod)
    (json : Option (List (String × Json)) := none)
    (params : Option (List (String × Json)) := none)
    (timeout : Nat := 5)
    (pars :
      Option (Response → Except ExternalHttpRequestError Json × List String) :=
      some convert_httpx_response_to_json)
    (retries : Nat := 0) :
    BaseHttpxClient × Except ExternalHttpRequestError SendValue × List Event :=
  let transport : AsyncHTTPTransport := ⟨retries, self._verify⟩
  let cfg : AsyncClientConfig := ⟨self._base_url, timeout, self._auth, transport⟩
  match outcome with
  | TransportOutcome.httpError e =>
      (self, Except.error ⟨Json.str e⟩,
        [Event.transportCreated transport, Event.clientOpened cfg,
         Event.clientClosed])
  | TransportOutcome.gotResponse response =>
      match pars with
      | some p =>
          let parsedResult := p response
          (self, parsedResult.1.map SendValue.parsed,
            [Event.transportCreated transport, Event.clientOpened cfg,
             Event.clientClosed] ++ parsedResult.2.map Event.logError)
      | none =>
          (self, Except.ok (SendValue.raw response),
            [Event.transportCreated transport, Event.clientOpened cfg,
             Event.clientClosed])

/-- Error-level log messages appearing in an event trace. -/
def errorLogs (tr : List Event) : List String :=
  tr.filterMap fun e =>
    match e with
    | Event.logError m => some m
    | _ => none

/-- Transports constructed during an event trace. -/
def createdTransports (tr : List Event) : List AsyncHTTPTransport :=
  tr.filterMap fun e =>
    match e with
    | Event.transportCreated t => some t
    | _ => none

/-- Message topics for inter-service messaging (`TopicsEnum` in
`schemas.py`). -/
inductive TopicsEnum where
  | GPT_BOT_RESULT
  | GPT_BOT_REQUEST

/-- String value of each `TopicsEnum` member. -/
def TopicsEnum.value : TopicsEnum → String
  | TopicsEnum.GPT_BOT_RESULT => "gpt_bot_result"
  | TopicsEnum.GPT_BOT_REQUEST => "gpt_bot_request"

/-- Response variants of the GPT payload (`GptDtoType` in `schemas.py`,
a `StrEnum` with `auto()` values, i.e. the lowercased member names). -/
inductive GptDtoType where
  | IMAGE
  | TEXT
  | AUDIO

/-- String value of each `GptDtoType` member. -/
def GptDtoType.value : GptDtoType → String
  | GptDtoType.IMAGE => "image"
  | GptDtoType.TEXT => "text"
  | GptDtoType.AUDIO => "audio"

/-- The GPT message payload (`GptDto` in `schemas.py`): text content,
error flag (default false), optional chat id, response variant
(default TEXT). -/
structure GptDto where
  content : String
  is_error : Bool := false
  chat_id : Option Int := none
  type : GptDtoType := GptDtoType.TEXT

/-- Environment-sourced configuration (`Settings` in `settings.py`);
field defaults as declared there. -/
structure Settings where
  aws_host : String := "host"
  aws_bucket_name : String := "bucket"
  aws_access_key_id : String := "access_key_id"
  aws_secret_access_key : String := "secret_access_key"

/-- The object-storage contents: an association of keys to blob bytes.
`boto3` operations act on this abstract store. -/
def S3Store := List (String × List Nat)

/-- State of an `AWSClient` after `__init__`: the bucket name copied
from settings (the boto3 session itself is an external collaborator). -/
structure AWSClient where
  bucket_name : String

/-- Translation of `AWSClient.__init__`: the bucket name is taken from
the settings. -/
def AWSClient.init (s : Settings) : AWSClient :=
  ⟨s.aws_bucket_name⟩

/-- Translation of `AWSClient.get_link`: the public link is
`aws_host/bucket_name/filename`. The module-global `settings` object is
passed explicitly. -/
def AWSClient.get_link (s : Settings) (self : AWSClient)
    (filename : String) : String :=
  s.aws_host ++ "/" ++ self.bucket_name ++ "/" ++ filename

/-- Translation of `AWSClient.upload_file`: the blob is stored under the
bucket at the given key (`session.upload_fileobj`, modelled as an
insertion into the abstract store) and the public link is returned. -/
def AWSClient.upload_file (s : Settings) (self : AWSClient)
    (store : S3Store) (file_io : List Nat) (filename : String) :
    S3Store × String :=
  ((filename, file_io) :: store, AWSClient.get_link s self filename)

/-! Claim theorems. -/

/-- C1: for every response with a success status whose body decodes as
valid JSON, the default parser `convert_httpx_response_to_json` returns
exactly the decoded structure (with no log emitted), and the executor
`_send_request` run with the default parser returns exactly that
structure, for every JSON-representable value. -/
theorem c1_success_decoded_json (j : Json) (r : Response)
    (hs : r.is_error = false) (hj : r.jsonBody = some j) :
    convert_httpx_response_to_json r = (Except.ok j, []) ∧
    ∀ (self : BaseHttpxClient) (path : String) (method : HttpMethod)
      (jsonArg params : Option (List (String × Json))) (timeout retries : Nat),
      (_send_request self (TransportOutcome.gotResponse r) path method jsonArg
          params timeout (some convert_httpx_response_to_json) retries).2.1
        = Except.ok (SendValue.parsed j) := by
  have hp : convert_httpx_response_to_json r = (Except.ok j, []) := by
    simp [convert_httpx_response_to_json, hs, hj]
  refine ⟨hp, ?_⟩
  intro self path method jsonArg params timeout retries
  simp [_send_request, hp, Except.map]

/-- Witness for C1 at a concrete input: status 200, body decoding to
the JSON object with one field ok := true. -/
theorem c1_success_decoded_json_witness :
    convert_httpx_response_to_json
        ⟨200, "x", some (Json.obj [("ok", Json.bool true)])⟩
      = (Except.ok (Json.obj [("ok", Json.bool true)]), []) ∧
    (_send_request (BaseHttpxClient.init)
        (TransportOutcome.gotResponse
          ⟨200, "x", some (Json.obj [("ok", Json.bool true)])⟩)
        "/ping" HttpMethod.get).2.1
      = Except.ok (SendValue.parsed (Json.obj [("ok", Json.bool true)])) := by
  have h := c1_success_decoded_json (Json.obj [("ok", Json.bool true)])
    ⟨200, "x", some (Json.obj [("ok", Json.bool true)])⟩ rfl rfl
  exact ⟨h.1, h.2 (BaseHttpxClient.init) "/ping" HttpMethod.get none none 5 0⟩

/-- C2: for every response with a success status whose body does not
decode as JSON, the default parser (and hence the executor) raises
`ExternalHttpRequestError` carrying the body decoded as text, and emits
exactly one error-level log entry, which contains that text. -/
theorem c2_success_undecodable (r : Response)
    (hs : r.is_error = false) (hj : r.jsonBody = none) :
    convert_httpx_response_to_json r
      = (Except.error ⟨Json.str r.text⟩, ["Response body " ++ r.text]) ∧
    ∀ (self : BaseHttpxClient) (path : String) (method : HttpMethod)
      (jsonArg params : Option (List (String × Json))) (timeout retries : Nat),
      (_send_request self (TransportOutcome.gotResponse r) path method jsonArg
          params timeout (some convert_httpx_response_to_json) retries).2.1
        = Except.error ⟨Json.str r.text⟩ ∧
      errorLogs
        (_send_request self (TransportOutcome.gotResponse r) path method
          jsonArg params timeout (some convert_httpx_response_to_json)
          retries).2.2
        = ["Response body " ++ r.text] := by
  have hp : convert_httpx_response_to_json r
      = (Except.error ⟨Json.str r.text⟩, ["Response body " ++ r.text]) := by
    simp [convert_httpx_response_to_json, hs, hj]
  refine ⟨hp, ?_⟩
  intro self path method jsonArg params timeout retries
  simp [_send_request, hp, errorLogs, Except.map]

/-- Witness for C2 at a concrete input: status 200, body text
"not json" that does not decode as JSON. -/
theorem c2_success_undecodable_witness :
    convert_httpx_response_to_json ⟨200, "not json", none⟩
      = (Except.error ⟨Json.str "not json"⟩,
          ["Response body " ++ "not json"]) ∧
    ((_send_request (BaseHttpxClient.init)
        (TransportOutcome.gotResponse ⟨200, "not json", none⟩)
        "/ping" HttpMethod.get).2.1
      = Except.error ⟨Json.str "not json"⟩ ∧
    errorLogs
        (_send_request (BaseHttpxClient.init)
          (TransportOutcome.gotResponse ⟨200, "not json", none⟩)
          "/ping" HttpMethod.get).2.2
      = ["Response body " ++ "not json"]) := by
  have h := c2_success_undecodable ⟨200, "not json", none⟩ rfl rfl
  exact ⟨h.1, h.2 (BaseHttpxClient.init) "/ping" HttpMethod.get none none 5 0⟩

/-- C3: for every response with a 4xx/5xx status, the default parser
(and hence the executor) raises `ExternalHttpRequestError` carrying the
decoded JSON structure when the body decodes, and the raw body text when
it does not; no error-level log entry is emitted on this path. -/
theorem c3_error_status (r : Response) (hs : r.is_error = true) :
    (∀ j : Json, r.jsonBody = some j →
      convert_httpx_response_to_json r = (Except.error ⟨j⟩, [])) ∧
    (r.jsonBody = none →
      convert_httpx_response_to_json r
        = (Except.error ⟨Json.str r.text⟩, [])) ∧
    ∀ (self : BaseHttpxClient) (path : String) (method : HttpMethod)
      (jsonArg params : Option (List (String × Json))) (timeout retries : Nat),
      (∃ err, (_send_request self (TransportOutcome.gotResponse r) path method
          jsonArg params timeout (some convert_httpx_response_to_json)
          retries).2.1 = Except.error err) ∧
      errorLogs
        (_send_request self (TransportOutcome.gotResponse r) path method
          jsonArg params timeout (some convert_httpx_response_to_json)
          retries).2.2
        = [] := by
  have hp : convert_httpx_response_to_json r
      = (Except.error
          ⟨match r.jsonBody with
            | some decoded => decoded
            | none => Json.str r.text⟩, []) := by
    simp [convert_httpx_response_to_json, hs]
  refine ⟨?_, ?_, ?_⟩
  · intro j hj
    rw [hp, hj]
  · intro hj
    rw [hp, hj]
  · intro self path method jsonArg params timeout retries
    constructor
    · exact ⟨⟨match r.jsonBody with
          | some decoded => decoded
          | none => Json.str r.text⟩, by simp [_send_request, hp, Except.map]⟩
    · simp [_send_request, hp, errorLogs, Except.map]

/-- Witness for C3 at concrete inputs: status 500 with body decoding to
the object with field error := "boom", and status 404 with an
undecodable body. -/
theorem c3_error_status_witness :
    convert_httpx_response_to_json
        ⟨500, "x", some (Json.obj [("error", Json.str "boom")])⟩
      = (Except.error ⟨Json.obj [("error", Json.str "boom")]⟩, []) ∧
    convert_httpx_response_to_json ⟨404, "nope", none⟩
      = (Except.error ⟨Json.str "nope"⟩, []) ∧
    errorLogs
        (_send_request (BaseHttpxClient.init)
          (TransportOutcome.gotResponse ⟨404, "nope", none⟩)
          "/ping" HttpMethod.get).2.2
      = [] := by
  refine ⟨?_, ?_, ?_⟩
  · exact (c3_error_status
      ⟨500, "x", some (Json.obj [("error", Json.str "boom")])⟩ rfl).1
      (Json.obj [("error", Json.str "boom")]) rfl
  · exact (c3_error_status ⟨404, "nope", none⟩ rfl).2.1 rfl
  · exact ((c3_error_status ⟨404, "nope", none⟩ rfl).2.2
      (BaseHttpxClient.init) "/ping" HttpMethod.get none none 5 0).2

/-- C4: for every transport-level exception raised before a response is
obtained, `_send_request` raises `ExternalHttpRequestError` carrying the
exception's string description, for every parser argument and every
configured retry count. -/
theorem c4_transport_error (e : String) (self : BaseHttpxClient)
    (path : String) (method : HttpMethod)
    (jsonArg params : Option (List (String × Json))) (timeout : Nat)
    (pars :
      Option (Response → Except ExternalHttpRequestError Json × List String))
    (retries : Nat) :
    (_send_request self (TransportOutcome.httpError e) path method jsonArg
        params timeout pars retries).2.1
      = Except.error ⟨Json.str e⟩ :=
  rfl

/-- C5: with the default parser, a call to `_send_request` is
all-or-nothing: its outcome is either a success or an
`ExternalHttpRequestError`, and it is a success with value v exactly
when a response was received with a success status and a JSON-decodable
body, in which case v is the decoded structure. -/
theorem c5_all_or_nothing (self : BaseHttpxClient)
    (outcome : TransportOutcome) (path : String) (method : HttpMethod)
    (jsonArg params : Option (List (String × Json))) (timeout retries : Nat) :
    ((∃ v, (_send_request self outcome path method jsonArg params timeout
        (some convert_httpx_response_to_json) retries).2.1 = Except.ok v) ∨
      (∃ err, (_send_request self outcome path method jsonArg params timeout
        (some convert_httpx_response_to_json) retries).2.1
          = Except.error err)) ∧
    ∀ v, (_send_request self outcome path method jsonArg params timeout
        (some convert_httpx_response_to_json) retries).2.1 = Except.ok v ↔
      ∃ r j, outcome = TransportOutcome.gotResponse r ∧ r.is_error = false ∧
        r.jsonBody = some j ∧ v = SendValue.parsed j := by
  constructor
  · cases h : (_send_request self outcome path method jsonArg params timeout
        (some convert_httpx_response_to_json) retries).2.1 with
    | ok v => exact Or.inl ⟨v, rfl⟩
    | error err => exact Or.inr ⟨err, rfl⟩
  · intro v
    cases outcome with
    | httpError e =>
        constructor
        · intro hv
          simp [_send_request] at hv
        · rintro ⟨r2, j2, hr2, hs2, hj2, hv⟩
          exact TransportOutcome.noConfusion hr2
    | gotResponse r =>
        cases hs : r.is_error with
        | true =>
            have hsend : (_send_request self (TransportOutcome.gotResponse r)
                path method jsonArg params timeout
                (some convert_httpx_response_to_json) retries).2.1
                = Except.error
                  ⟨match r.jsonBody with
                    | some decoded => decoded
                    | none => Json.str r.text⟩ := by
              simp [_send_request, convert_httpx_response_to_json, hs,
                Except.map]
            constructor
            · intro hv
              rw [hsend] at hv
              exact Except.noConfusion hv
            · rintro ⟨r2, j2, hr2, hs2, hj2, hv⟩
              cases hr2
              rw [hs] at hs2
              exact Bool.noConfusion hs2
        | false =>
            cases hj : r.jsonBody with
            | some j =>
                have hsend : (_send_request self
                    (TransportOutcome.gotResponse r) path method jsonArg
                    params timeout (some convert_httpx_response_to_json)
                    retries).2.1
                    = Except.ok (SendValue.parsed j) := by
                  simp [_send_request, convert_httpx_response_to_json, hs, hj,
                    Except.map]
                constructor
                · intro hv
                  refine ⟨r, j, rfl, hs, hj, ?_⟩
                  exact (Except.ok.inj (hsend.symm.trans hv)).symm
                · rintro ⟨r2, j2, hr2, hs2, hj2, hv⟩
                  cases hr2
                  rw [hj] at hj2
                  have hjj : j = j2 := Option.some.inj hj2
                  rw [hv, ← hjj]
                  exact hsend
            | none =>
                have hsend : (_send_request self
                    (TransportOutcome.gotResponse r) path method jsonArg
                    params timeout (some convert_httpx_response_to_json)
                    retries).2.1
                    = Except.error ⟨Json.str r.text⟩ := by
                  simp [_send_request, convert_httpx_response_to_json, hs, hj,
                    Except.map]
                constructor
                · intro hv
                  rw [hsend] at hv
                  exact Except.noConfusion hv
                · rintro ⟨r2, j2, hr2, hs2, hj2, hv⟩
                  cases hr2
                  rw [hj] at hj2
                  exact Option.noConfusion hj2

/-- C6: when the parser argument is the explicit no-parsing sentinel
(None), `_send_request` returns the raw response object unchanged;
otherwise the outcome is exactly the active parser applied to the
response. -/
theorem c6_parser_dispatch (self : BaseHttpxClient) (r : Response)
    (path : String) (method : HttpMethod)
    (jsonArg params : Option (List (String × Json))) (timeout retries : Nat) :
    (_send_request self (TransportOutcome.gotResponse r) path method jsonArg
        params timeout none retries).2.1
      = Except.ok (SendValue.raw r) ∧
    ∀ p : Response → Except ExternalHttpRequestError Json × List String,
      (_send_request self (TransportOutcome.gotResponse r) path method jsonArg
          params timeout (some p) retries).2.1
        = (p r).1.map SendValue.parsed :=
  ⟨rfl, fun _ => rfl⟩

/-- C7: every `_send_request` call constructs exactly one fresh
transport, configured with the call's retry count and the client's
TLS-verification flag, and the call-level defaults are timeout 5,
retries 0 and the default JSON parser. -/
theorem c7_fresh_transport_and_defaults (self : BaseHttpxClient)
    (outcome : TransportOutcome) (path : String) (method : HttpMethod) :
    _send_request self outcome path method
      = _send_request self outcome path method none none 5
          (some convert_httpx_response_to_json) 0 ∧
    ∀ (jsonArg params : Option (List (String × Json))) (timeout : Nat)
      (pars :
        Option (Response → Except ExternalHttpRequestError Json × List String))
      (retries : Nat),
      createdTransports
          (_send_request self outcome path method jsonArg params timeout pars
            retries).2.2
        = [⟨retries, self._verify⟩] := by
  refine ⟨rfl, ?_⟩
  intro jsonArg params timeout pars retries
  cases outcome with
  | httpError e => simp [_send_request, createdTransports]
  | gotResponse r =>
      cases pars with
      | none => simp [_send_request, createdTransports]
      | some p =>
          simp [_send_request, createdTransports, List.filterMap_append,
            List.filterMap_map, Function.comp]

/-- C8: the client configuration is unchanged by `_send_request`: on
every outcome, the client object after the call equals the client before
it, so its TLS flag, base URL and auth strategy are untouched. -/
theorem c8_client_unchanged (self : BaseHttpxClient)
    (outcome : TransportOutcome) (path : String) (method : HttpMethod)
    (jsonArg params : Option (List (String × Json))) (timeout : Nat)
    (pars :
      Option (Response → Except ExternalHttpRequestError Json × List String))
    (retries : Nat) :
    (_send_request self outcome path method jsonArg params timeout pars
        retries).1 = self ∧
    (_send_request self outcome path method jsonArg params timeout pars
        retries).1._verify = self._verify ∧
    (_send_request self outcome path method jsonArg params timeout pars
        retries).1._base_url = self._base_url ∧
    (_send_request self outcome path method jsonArg params timeout pars
        retries).1._auth = self._auth := by
  cases outcome with
  | httpError e => exact ⟨rfl, rfl, rfl, rfl⟩
  | gotResponse r =>
      cases pars with
      | none => exact ⟨rfl, rfl, rfl, rfl⟩
      | some p => exact ⟨rfl, rfl, rfl, rfl⟩

/-- C9: the message schema comprises exactly the two topics with string
values gpt_bot_result and gpt_bot_request (distinct members), and the
GPT payload shape carries exactly a text content field, an error flag,
a chat id and a response variant. -/
theorem c9_schema_shape :
    (∀ t : TopicsEnum,
      t = TopicsEnum.GPT_BOT_RESULT ∨ t = TopicsEnum.GPT_BOT_REQUEST) ∧
    TopicsEnum.value TopicsEnum.GPT_BOT_RESULT = "gpt_bot_result" ∧
    TopicsEnum.value TopicsEnum.GPT_BOT_REQUEST = "gpt_bot_request" ∧
    TopicsEnum.GPT_BOT_RESULT ≠ TopicsEnum.GPT_BOT_REQUEST ∧
    ∀ d : GptDto, d = ⟨d.content, d.is_error, d.chat_id, d.type⟩ := by
  refine ⟨?_, rfl, rfl, ?_, ?_⟩
  · intro t
    cases t with
    | GPT_BOT_RESULT => exact Or.inl rfl
    | GPT_BOT_REQUEST => exact Or.inr rfl
  · intro h
    exact TopicsEnum.noConfusion h
  · intro d
    cases d with
    | mk content is_err chat ty => rfl

/-- C10: for every settings, client state, store contents, blob and
filename, `AWSClient.upload_file` returns exactly
`AWSClient.get_link` of that filename, which is the concatenation
aws_host / bucket_name / filename. -/
theorem c10_upload_returns_link (s : Settings) (c : AWSClient)
    (store : S3Store) (file_io : List Nat) (filename : String) :
    (AWSClient.upload_file s c store file_io filename).2
      = AWSClient.get_link s c filename ∧
    AWSClient.get_link s c filename
      = s.aws_host ++ "/" ++ c.bucket_name ++ "/" ++ filename :=
  ⟨rfl, rfl⟩

end GmonitorLib
